import Mathlib

/-!
Shallow embedding of the rootsy storage core: the data model and the
operations of src/storage/database.ts (class Database) and of the
StorageManager class (sessions, logs, log groups).

Modelling conventions:
* the three SQLite tables are lists kept in insertion (rowid) order;
* the sqlite handle held by class Database is an Option: none models the
  null handle before the store is opened and after close();
* Date.now() and uuidv4() are passed in as explicit parameters (now,
  freshId), since the embedding is pure;
* a PRIMARY KEY violation on INSERT is the only failing statement the
  embedded SQL can produce (foreign keys are declared but SQLite leaves
  them unenforced by default, matching createTables), and it is modelled
  by DBError.constraintViolation;
* ORDER BY clauses are modelled by insertion sort on the queried key;
* optional TEXT columns are bound in the source as field || null, so an
  absent or empty-string value is stored as NULL: strOrNull models that
  normalization and the bindRow functions apply it to exactly the
  parameters the source normalizes.
-/

namespace Rootsy

/-- A row of the sessions table / the Session interface. -/
structure Session where
  id : String
  name : String
  createdAt : Nat
  updatedAt : Nat
  cloudProvider : String
  startTime : Nat
  endTime : Nat
  status : String
deriving DecidableEq, Repr

/-- A row of the logs table / the Log interface. -/
structure Log where
  id : String
  sessionId : String
  logContent : String
  timestamp : Nat
  service : Option String
  logLevel : Option String
  groupId : Option String
deriving DecidableEq, Repr

/-- A row of the log_groups table / the LogGroup interface. -/
structure LogGroup where
  id : String
  sessionId : String
  name : String
  description : Option String
  rootCause : Option String
  suggestedFix : Option String
  status : String
deriving DecidableEq, Repr

/-- JavaScript's value || null on an optional TEXT binding: undefined,
null and the empty string are all falsy, so each is bound as NULL. -/
def strOrNull : Option String → Option String
  | none => none
  | some s => if s = "" then none else some s

/-- The parameter row bound by saveLogs' INSERT INTO logs: service,
log_level and group_id are passed as log.field || null, the remaining
columns verbatim. -/
def Log.bindRow (l : Log) : Log :=
  { l with service := strOrNull l.service,
           logLevel := strOrNull l.logLevel,
           groupId := strOrNull l.groupId }

/-- The parameter row bound by createLogGroup's INSERT INTO log_groups:
description, root_cause and suggested_fix are passed as
logGroup.field || null, the remaining columns verbatim. -/
def LogGroup.bindRow (g : LogGroup) : LogGroup :=
  { g with description := strOrNull g.description,
           rootCause := strOrNull g.rootCause,
           suggestedFix := strOrNull g.suggestedFix }

/-- The three tables created by Database.createTables, each in rowid
(insertion) order. -/
structure DB where
  sessions : List Session
  logs : List Log
  logGroups : List LogGroup
deriving DecidableEq, Repr

/-- Errors surfaced by the embedded store: the guard of run/get/all when
the handle is null, and a SQLite constraint failure (duplicate PRIMARY
KEY) on INSERT. -/
inductive DBError where
  | notInitialized
  | constraintViolation
deriving DecidableEq, Repr

/-- The Database class of src/storage/database.ts: it holds a nullable
sqlite handle. -/
structure Database where
  db : Option DB
deriving DecidableEq, Repr

/-- run(sql, params): fails when the handle is null, otherwise executes
one mutating statement against the open database. -/
def Database.run (d : Database) (stmt : DB → Except DBError DB) :
    Except DBError Database :=
  match d.db with
  | none => .error .notInitialized
  | some t =>
    match stmt t with
    | .error e => .error e
    | .ok t' => .ok ⟨some t'⟩

/-- get(sql, params): fails when the handle is null, otherwise returns
the first matching row, if any. -/
def Database.get (d : Database) (q : DB → Option α) :
    Except DBError (Option α) :=
  match d.db with
  | none => .error .notInitialized
  | some t => .ok (q t)

/-- all(sql, params): fails when the handle is null, otherwise returns
every matching row. -/
def Database.all (d : Database) (q : DB → List α) :
    Except DBError (List α) :=
  match d.db with
  | none => .error .notInitialized
  | some t => .ok (q t)

/-- close(): releases the handle (null afterwards; a second close is a
no-op on an already-null handle). -/
def Database.close (_ : Database) : Database := ⟨none⟩

/-- ORDER BY updated_at DESC, as a relation on session rows. -/
def sessionUpdatedDesc (a b : Session) : Prop := b.updatedAt ≤ a.updatedAt

/-- ORDER BY timestamp ASC, as a relation on log rows. -/
def logTimestampAsc (a b : Log) : Prop := a.timestamp ≤ b.timestamp

/-- SQLite compares TEXT under the default BINARY collation with memcmp
over the encoded bytes; on UTF-8 text that order agrees with the
lexicographic order on the codepoint sequence, embedded here. -/
def charListLe : List Char → List Char → Bool
  | [], _ => true
  | _ :: _, [] => false
  | a :: as, b :: bs =>
    if a.toNat < b.toNat then true
    else if b.toNat < a.toNat then false
    else charListLe as bs

/-- ORDER BY name ASC, as a relation on log-group rows (BINARY
collation). -/
def groupNameAsc (a b : LogGroup) : Prop :=
  charListLe a.name.data b.name.data = true

instance : DecidableRel sessionUpdatedDesc :=
  fun a b => inferInstanceAs (Decidable (b.updatedAt ≤ a.updatedAt))

instance : DecidableRel logTimestampAsc :=
  fun a b => inferInstanceAs (Decidable (a.timestamp ≤ b.timestamp))

instance : DecidableRel groupNameAsc :=
  fun a b =>
    inferInstanceAs (Decidable (charListLe a.name.data b.name.data = true))

/-- INSERT INTO sessions: rejects a duplicate PRIMARY KEY, otherwise
appends the row. -/
def DB.insertSession (t : DB) (s : Session) : Except DBError DB :=
  if t.sessions.any (fun r => r.id == s.id) then .error .constraintViolation
  else .ok { t with sessions := t.sessions ++ [s] }

/-- SELECT ... FROM sessions WHERE id = ?: the first row with the id. -/
def DB.selectSession (t : DB) (id : String) : Option Session :=
  t.sessions.find? (fun r => r.id == id)

/-- SELECT ... FROM sessions ORDER BY updated_at DESC. -/
def DB.selectAllSessions (t : DB) : List Session :=
  t.sessions.insertionSort sessionUpdatedDesc

/-- UPDATE sessions SET name, updated_at, cloud_provider, start_time,
end_time, status WHERE id = ?: id and created_at are not in the SET
list, so a matching row keeps them. -/
def DB.updateSessionRow (t : DB) (s : Session) : DB :=
  { t with sessions := t.sessions.map (fun r =>
      if r.id == s.id then
        { r with name := s.name, updatedAt := s.updatedAt,
                 cloudProvider := s.cloudProvider, startTime := s.startTime,
                 endTime := s.endTime, status := s.status }
      else r) }

/-- DELETE FROM logs WHERE session_id = ?. -/
def DB.deleteSessionLogs (t : DB) (id : String) : DB :=
  { t with logs := t.logs.filter (fun l => !(l.sessionId == id)) }

/-- DELETE FROM log_groups WHERE session_id = ?. -/
def DB.deleteSessionLogGroups (t : DB) (id : String) : DB :=
  { t with logGroups := t.logGroups.filter (fun g => !(g.sessionId == id)) }

/-- DELETE FROM sessions WHERE id = ?. -/
def DB.deleteSessionRow (t : DB) (id : String) : DB :=
  { t with sessions := t.sessions.filter (fun r => !(r.id == id)) }

/-- INSERT INTO logs: rejects a duplicate PRIMARY KEY, otherwise appends
the row (the declared FOREIGN KEY on session_id is not enforced). -/
def DB.insertLog (t : DB) (l : Log) : Except DBError DB :=
  if t.logs.any (fun r => r.id == l.id) then .error .constraintViolation
  else .ok { t with logs := t.logs ++ [l] }

/-- The insert loop of saveLogs: rows are inserted one by one and the
first failure aborts the rest. -/
def DB.insertLogs (t : DB) : List Log → Except DBError DB
  | [] => .ok t
  | l :: rest =>
    match t.insertLog l with
    | .error e => .error e
    | .ok t' => t'.insertLogs rest

/-- SELECT ... FROM logs WHERE session_id = ? ORDER BY timestamp ASC. -/
def DB.selectSessionLogs (t : DB) (sessionId : String) : List Log :=
  (t.logs.filter (fun l => l.sessionId == sessionId)).insertionSort
    logTimestampAsc

/-- INSERT INTO log_groups: rejects a duplicate PRIMARY KEY, otherwise
appends the row. -/
def DB.insertLogGroup (t : DB) (g : LogGroup) : Except DBError DB :=
  if t.logGroups.any (fun r => r.id == g.id) then .error .constraintViolation
  else .ok { t with logGroups := t.logGroups ++ [g] }

/-- SELECT ... FROM log_groups WHERE id = ?. -/
def DB.selectLogGroup (t : DB) (id : String) : Option LogGroup :=
  t.logGroups.find? (fun g => g.id == id)

/-- SELECT ... FROM log_groups WHERE session_id = ? ORDER BY name ASC. -/
def DB.selectSessionLogGroups (t : DB) (sessionId : String) : List LogGroup :=
  (t.logGroups.filter (fun g => g.sessionId == sessionId)).insertionSort
    groupNameAsc

/-- UPDATE log_groups SET name, description, root_cause, suggested_fix,
status WHERE id = ?: id and session_id are not in the SET list, and the
three optional columns are bound as logGroup.field || null. -/
def DB.updateLogGroupRow (t : DB) (g : LogGroup) : DB :=
  { t with logGroups := t.logGroups.map (fun r =>
      if r.id == g.id then
        { r with name := g.name, description := strOrNull g.description,
                 rootCause := strOrNull g.rootCause,
                 suggestedFix := strOrNull g.suggestedFix,
                 status := g.status }
      else r) }

/-- UPDATE logs SET group_id = ? WHERE id = ?. -/
def DB.assignLogRow (t : DB) (groupId logId : String) : DB :=
  { t with logs := t.logs.map (fun l =>
      if l.id == logId then { l with groupId := some groupId } else l) }

/-- The update loop of assignLogsToGroup over the given log ids. -/
def DB.assignLogs (t : DB) (groupId : String) : List String → DB
  | [] => t
  | lid :: rest => (t.assignLogRow groupId lid).assignLogs groupId rest

/-- SELECT ... FROM logs WHERE group_id = ? ORDER BY timestamp ASC. -/
def DB.selectGroupLogs (t : DB) (groupId : String) : List Log :=
  (t.logs.filter (fun l => l.groupId == some groupId)).insertionSort
    logTimestampAsc

/-- The StorageManager class: a Database plus the in-memory pointer to
the current session. -/
structure StorageManager where
  db : Database
  currentSession : Option Session
deriving DecidableEq, Repr

/-- The state built by the StorageManager constructor: a Database whose
handle is still null, and no current session. -/
def StorageManager.initialState : StorageManager :=
  { db := ⟨none⟩, currentSession := none }

/-- getCurrentSession(): a pure read of the in-memory pointer. -/
def StorageManager.getCurrentSession (m : StorageManager) : Option Session :=
  m.currentSession

/-- getSession(id): SELECT one sessions row by id via Database.get. -/
def StorageManager.getSession (m : StorageManager) (id : String) :
    Except DBError (Option Session) :=
  m.db.get (fun t => t.selectSession id)

/-- setCurrentSession(sessionId): looks the session up; when found it
replaces the pointer and returns the session, otherwise it returns null
and leaves the pointer alone. -/
def StorageManager.setCurrentSession (m : StorageManager)
    (sessionId : String) : Except DBError (Option Session × StorageManager) :=
  match m.getSession sessionId with
  | .error e => .error e
  | .ok (some s) => .ok (some s, { m with currentSession := some s })
  | .ok none => .ok (none, m)

/-- createSession(name, cloudProvider, startTime, endTime): builds the
record with a fresh id and now for both timestamps, INSERTs it and
returns it. freshId stands for uuidv4() and now for Date.now(). -/
def StorageManager.createSession (m : StorageManager)
    (name cloudProvider : String) (startTime endTime : Nat)
    (freshId : String) (now : Nat) :
    Except DBError (Session × StorageManager) :=
  let session : Session :=
    { id := freshId, name := name, createdAt := now, updatedAt := now,
      cloudProvider := cloudProvider, startTime := startTime,
      endTime := endTime, status := "new" }
  match m.db.run (fun t => t.insertSession session) with
  | .error e => .error e
  | .ok d' => .ok (session, { m with db := d' })

/-- getAllSessions(): SELECT every sessions row, most recently updated
first. -/
def StorageManager.getAllSessions (m : StorageManager) :
    Except DBError (List Session) :=
  m.db.all (fun t => t.selectAllSessions)

/-- updateSession(session): overwrites session.updatedAt with Date.now()
(the now parameter), UPDATEs the row by id and returns the record. -/
def StorageManager.updateSession (m : StorageManager) (session : Session)
    (now : Nat) : Except DBError (Session × StorageManager) :=
  let session' := { session with updatedAt := now }
  match m.db.run (fun t => .ok (t.updateSessionRow session')) with
  | .error e => .error e
  | .ok d' => .ok (session', { m with db := d' })

/-- deleteSession(id): DELETEs the session's logs, then its log groups,
then the session row, in that order. -/
def StorageManager.deleteSession (m : StorageManager) (id : String) :
    Except DBError StorageManager :=
  match m.db.run (fun t => .ok (t.deleteSessionLogs id)) with
  | .error e => .error e
  | .ok d1 =>
    match d1.run (fun t => .ok (t.deleteSessionLogGroups id)) with
    | .error e => .error e
    | .ok d2 =>
      match d2.run (fun t => .ok (t.deleteSessionRow id)) with
      | .error e => .error e
      | .ok d3 => .ok { m with db := d3 }

/-- saveLogs(logs): BEGIN TRANSACTION (which fails on a null handle),
INSERT each row with its optional columns bound as log.field || null,
COMMIT; on any row failure ROLLBACK restores the pre-transaction state
and the original error is re-thrown. The pair returns the outcome
together with the state after the call. -/
def StorageManager.saveLogs (m : StorageManager) (logs : List Log) :
    Except DBError Unit × StorageManager :=
  match m.db.db with
  | none => (.error .notInitialized, m)
  | some t =>
    match t.insertLogs (logs.map Log.bindRow) with
    | .ok t' => (.ok (), { m with db := ⟨some t'⟩ })
    | .error e => (.error e, m)

/-- getSessionLogs(sessionId): the session's logs, timestamp
ascending. -/
def StorageManager.getSessionLogs (m : StorageManager) (sessionId : String) :
    Except DBError (List Log) :=
  m.db.all (fun t => t.selectSessionLogs sessionId)

/-- createLogGroup(sessionId, name, description): builds the record with
a fresh id and status new, INSERTs it — binding the optional columns as
logGroup.field || null — and returns the built record. -/
def StorageManager.createLogGroup (m : StorageManager)
    (sessionId name : String) (description : Option String)
    (freshId : String) : Except DBError (LogGroup × StorageManager) :=
  let logGroup : LogGroup :=
    { id := freshId, sessionId := sessionId, name := name,
      description := description, rootCause := none, suggestedFix := none,
      status := "new" }
  match m.db.run (fun t => t.insertLogGroup logGroup.bindRow) with
  | .error e => .error e
  | .ok d' => .ok (logGroup, { m with db := d' })

/-- getLogGroup(id): SELECT one log_groups row by id. -/
def StorageManager.getLogGroup (m : StorageManager) (id : String) :
    Except DBError (Option LogGroup) :=
  m.db.get (fun t => t.selectLogGroup id)

/-- getSessionLogGroups(sessionId): the session's groups, name
ascending. -/
def StorageManager.getSessionLogGroups (m : StorageManager)
    (sessionId : String) : Except DBError (List LogGroup) :=
  m.db.all (fun t => t.selectSessionLogGroups sessionId)

/-- updateLogGroup(logGroup): UPDATEs the row by id and returns the
record unchanged (log groups have no timestamp field). -/
def StorageManager.updateLogGroup (m : StorageManager) (logGroup : LogGroup) :
    Except DBError (LogGroup × StorageManager) :=
  match m.db.run (fun t => .ok (t.updateLogGroupRow logGroup)) with
  | .error e => .error e
  | .ok d' => .ok (logGroup, { m with db := d' })

/-- assignLogsToGroup(groupId, logIds): BEGIN TRANSACTION (which fails
on a null handle), UPDATE each named log's group_id, COMMIT. The UPDATE
statements cannot fail, so the transaction always commits once begun. -/
def StorageManager.assignLogsToGroup (m : StorageManager)
    (groupId : String) (logIds : List String) :
    Except DBError Unit × StorageManager :=
  match m.db.db with
  | none => (.error .notInitialized, m)
  | some t => (.ok (), { m with db := ⟨some (t.assignLogs groupId logIds)⟩ })

/-- getGroupLogs(groupId): the group's logs, timestamp ascending. -/
def StorageManager.getGroupLogs (m : StorageManager) (groupId : String) :
    Except DBError (List Log) :=
  m.db.all (fun t => t.selectGroupLogs groupId)

/-- close(): delegates to Database.close. -/
def StorageManager.close (m : StorageManager) : StorageManager :=
  { m with db := m.db.close }

/-! Concrete store contents used to exercise the theorems on explicit
inputs. -/

/-- A stored session row. -/
def sampleSessionA : Session :=
  { id := "s1", name := "Outage", createdAt := 5, updatedAt := 5,
    cloudProvider := "aws", startTime := 0, endTime := 10, status := "new" }

/-- A second stored session row. -/
def sampleSessionB : Session :=
  { id := "s2", name := "Later", createdAt := 1, updatedAt := 7,
    cloudProvider := "gcp", startTime := 0, endTime := 9,
    status := "in_progress" }

/-- A stored log row assigned to group g1. -/
def sampleLog1 : Log :=
  { id := "l1", sessionId := "s1", logContent := "boom", timestamp := 3,
    service := some "svcA", logLevel := some "error", groupId := some "g1" }

/-- A stored unassigned log row. -/
def sampleLog2 : Log :=
  { id := "l2", sessionId := "s1", logContent := "slow", timestamp := 1,
    service := none, logLevel := some "warn", groupId := none }

/-- A stored log group. -/
def sampleGroupA : LogGroup :=
  { id := "g1", sessionId := "s1", name := "alpha", description := none,
    rootCause := none, suggestedFix := none, status := "new" }

/-- A second stored log group. -/
def sampleGroupB : LogGroup :=
  { id := "g2", sessionId := "s1", name := "beta",
    description := some "d", rootCause := none, suggestedFix := none,
    status := "new" }

/-- The concrete open database. -/
def sampleDB : DB :=
  { sessions := [sampleSessionA, sampleSessionB],
    logs := [sampleLog1, sampleLog2],
    logGroups := [sampleGroupA, sampleGroupB] }

/-- A StorageManager over the open sample database, with session s1
selected. -/
def sampleStore : StorageManager :=
  { db := ⟨some sampleDB⟩, currentSession := some sampleSessionA }

/-- A session record whose id matches no stored row. -/
def sampleGhostSession : Session :=
  { id := "zz", name := "Ghost", createdAt := 2, updatedAt := 2,
    cloudProvider := "aws", startTime := 0, endTime := 1,
    status := "completed" }

/-- A log-group record whose id matches no stored row. -/
def sampleGhostGroup : LogGroup :=
  { id := "zg", sessionId := "s1", name := "ghost", description := none,
    rootCause := some "rc", suggestedFix := none, status := "analyzed" }

/-- A fresh log row whose insert succeeds. -/
def sampleFreshLog : Log :=
  { id := "l9", sessionId := "s1", logContent := "new row",
    timestamp := 2, service := none, logLevel := none, groupId := none }

/-- A log row that duplicates the stored PRIMARY KEY l1. -/
def sampleDupLog : Log :=
  { id := "l1", sessionId := "s1", logContent := "dup", timestamp := 4,
    service := none, logLevel := none, groupId := none }

/-- A batch whose second row fails the PRIMARY KEY constraint. -/
def sampleDupBatch : List Log := [sampleFreshLog, sampleDupLog]

/-- A log row carrying an empty-string service: the source binds
service || null, so the stored row has NULL there. -/
def sampleEmptyServiceLog : Log :=
  { id := "l8", sessionId := "s1", logContent := "empty svc",
    timestamp := 6, service := some "", logLevel := none, groupId := none }

/-! Properties of the BINARY-collation comparison, making it a total
preorder usable by the sort lemmas. -/

theorem charListLe_nil_left (y : List Char) : charListLe [] y = true := by
  cases y <;> rfl

theorem charListLe_total (x y : List Char) :
    charListLe x y = true ∨ charListLe y x = true := by
  induction x generalizing y with
  | nil => exact Or.inl (charListLe_nil_left y)
  | cons a as ih =>
    cases y with
    | nil => exact Or.inr (charListLe_nil_left _)
    | cons b bs =>
      rcases Nat.lt_trichotomy a.toNat b.toNat with hab | hab | hab
      · left; simp [charListLe, hab]
      · have h1 : ¬ a.toNat < b.toNat := by omega
        have h2 : ¬ b.toNat < a.toNat := by omega
        rcases ih bs with h | h
        · left; simp [charListLe, h1, h2, h]
        · right; simp [charListLe, h1, h2, h]
      · right; simp [charListLe, hab]

theorem charListLe_trans (x : List Char) : ∀ y z, charListLe x y = true →
    charListLe y z = true → charListLe x z = true := by
  induction x with
  | nil => intro y z _ _; exact charListLe_nil_left z
  | cons a as ih =>
    intro y z hxy hyz
    cases y with
    | nil => simp [charListLe] at hxy
    | cons b bs =>
      cases z with
      | nil => simp [charListLe] at hyz
      | cons c cs =>
        have hab : a.toNat ≤ b.toNat := by
          by_contra hc
          have h1 : ¬ a.toNat < b.toNat := by omega
          have h2 : b.toNat < a.toNat := by omega
          simp [charListLe, h1, h2] at hxy
        have hbc : b.toNat ≤ c.toNat := by
          by_contra hc
          have h1 : ¬ b.toNat < c.toNat := by omega
          have h2 : c.toNat < b.toNat := by omega
          simp [charListLe, h1, h2] at hyz
        rcases Nat.lt_trichotomy a.toNat c.toNat with hac | hac | hac
        · simp [charListLe, hac]
        · have h1 : ¬ a.toNat < b.toNat := by omega
          have h2 : ¬ b.toNat < a.toNat := by omega
          have h3 : ¬ b.toNat < c.toNat := by omega
          have h4 : ¬ c.toNat < b.toNat := by omega
          have h5 : ¬ a.toNat < c.toNat := by omega
          have h6 : ¬ c.toNat < a.toNat := by omega
          simp [charListLe, h1, h2] at hxy
          simp [charListLe, h3, h4] at hyz
          simp [charListLe, h5, h6]
          exact ih bs cs hxy hyz
        · omega

instance : IsTotal Session sessionUpdatedDesc :=
  ⟨fun a b => Nat.le_total b.updatedAt a.updatedAt⟩

instance : IsTrans Session sessionUpdatedDesc :=
  ⟨fun _ _ _ h1 h2 => Nat.le_trans h2 h1⟩

instance : IsTotal Log logTimestampAsc :=
  ⟨fun a b => Nat.le_total a.timestamp b.timestamp⟩

instance : IsTrans Log logTimestampAsc :=
  ⟨fun _ _ _ h1 h2 => Nat.le_trans h1 h2⟩

instance : IsTotal LogGroup groupNameAsc :=
  ⟨fun a b => charListLe_total a.name.data b.name.data⟩

instance : IsTrans LogGroup groupNameAsc :=
  ⟨fun a b c h1 h2 => charListLe_trans a.name.data b.name.data c.name.data h1 h2⟩

/-! List-level helper lemmas about the embedded SQL statements. -/

theorem filter_not_filter_self {α : Type _} (p : α → Bool) (l : List α) :
    (l.filter (fun a => !(p a))).filter p = [] := by
  induction l with
  | nil => rfl
  | cons a as ih => cases hpa : p a <;> simp [List.filter_cons, hpa, ih]

theorem find?_filter_not {α : Type _} (p : α → Bool) (l : List α) :
    (l.filter (fun a => !(p a))).find? p = none := by
  apply List.find?_eq_none.mpr
  intro x hx
  have hmem := List.mem_filter.mp hx
  simpa using hmem.2

theorem map_if_no_match {α : Type _} (p : α → Bool) (f : α → α) (l : List α)
    (h : ∀ a ∈ l, p a = false) :
    l.map (fun a => if p a then f a else a) = l := by
  induction l with
  | nil => rfl
  | cons a as ih =>
    have ha := h a (by simp)
    simp [ha, ih (fun x hx => h x (by simp [hx]))]

theorem find?_map_if {α : Type _} (p : α → Bool) (f : α → α)
    (hf : ∀ a, p (f a) = p a) (l : List α) (r : α)
    (hr : l.find? p = some r) :
    (l.map (fun a => if p a then f a else a)).find? p = some (f r) := by
  induction l with
  | nil => simp at hr
  | cons a as ih =>
    cases hpa : p a with
    | true =>
      rw [List.find?_cons_of_pos _ hpa] at hr
      injection hr with hr
      subst hr
      simp only [List.map_cons, hpa, if_true]
      rw [List.find?_cons_of_pos _ (by rw [hf]; exact hpa)]
    | false =>
      rw [List.find?_cons_of_neg _ (by simp [hpa])] at hr
      simp only [List.map_cons, hpa, if_false]
      rw [List.find?_cons_of_neg _ (by simp [hpa])]
      exact ih hr

theorem insertLogs_ok : ∀ (logs : List Log) (t t' : DB),
    DB.insertLogs t logs = .ok t' →
    t'.sessions = t.sessions ∧ t'.logGroups = t.logGroups ∧
      t'.logs = t.logs ++ logs := by
  intro logs
  induction logs with
  | nil =>
    intro t t' h
    simp only [DB.insertLogs] at h
    injection h with h
    subst h
    simp
  | cons l rest ih =>
    intro t t' h
    cases hany : t.logs.any (fun r => r.id == l.id) with
    | true => simp [DB.insertLogs, DB.insertLog, hany] at h
    | false =>
      simp only [DB.insertLogs, DB.insertLog, hany, Bool.false_eq_true,
        if_false] at h
      obtain ⟨h1, h2, h3⟩ := ih _ _ h
      refine ⟨by simpa using h1, by simpa using h2, ?_⟩
      simpa [List.append_assoc] using h3

theorem assignLogs_eq (gid : String) : ∀ (lids : List String) (t : DB),
    (t.assignLogs gid lids).sessions = t.sessions ∧
    (t.assignLogs gid lids).logGroups = t.logGroups ∧
    (t.assignLogs gid lids).logs =
      t.logs.map (fun l => if l.id ∈ lids then
        { l with groupId := some gid } else l) := by
  intro lids
  induction lids with
  | nil =>
    intro t
    refine ⟨rfl, rfl, ?_⟩
    simp [DB.assignLogs]
  | cons lid rest ih =>
    intro t
    simp only [DB.assignLogs]
    obtain ⟨h1, h2, h3⟩ := ih (t.assignLogRow gid lid)
    refine ⟨by simpa [DB.assignLogRow] using h1,
      by simpa [DB.assignLogRow] using h2, ?_⟩
    rw [h3]
    simp only [DB.assignLogRow]
    rw [List.map_map]
    congr 1
    funext l
    cases l with
    | mk li lsid lc lts lsv llv lg =>
      by_cases he : li = lid
      · subst he
        by_cases hr : li ∈ rest <;>
          simp [List.mem_cons, hr]
      · have hne : (li == lid) = false := by simp [he]
        by_cases hr : li ∈ rest <;>
          simp [List.mem_cons, hr, hne, he]

/-! The claims. -/

/-- Claim C8: after close(), and on a store whose Database handle was
never opened, every operation that goes through run/get/all — and hence
every CRUD and bulk operation of the StorageManager — fails with the
NotInitialized error rather than silently reopening the store. -/
theorem closed_store_ops_fail (m : StorageManager)
    (stmt : DB → Except DBError DB) (q : DB → Option Session)
    (ql : DB → List Log) (id nm cp gid : String) (logs : List Log)
    (s : Session) (g : LogGroup) (lids : List String) (now : Nat) :
    m.close.db.run stmt = .error .notInitialized ∧
    m.close.db.get q = .error .notInitialized ∧
    m.close.db.all ql = .error .notInitialized ∧
    m.close.getSession id = .error .notInitialized ∧
    m.close.getAllSessions = .error .notInitialized ∧
    m.close.getSessionLogs id = .error .notInitialized ∧
    m.close.getSessionLogGroups id = .error .notInitialized ∧
    m.close.getLogGroup gid = .error .notInitialized ∧
    m.close.getGroupLogs gid = .error .notInitialized ∧
    m.close.createSession nm cp 0 0 id now = .error .notInitialized ∧
    m.close.createLogGroup id nm none gid = .error .notInitialized ∧
    m.close.updateSession s now = .error .notInitialized ∧
    m.close.updateLogGroup g = .error .notInitialized ∧
    m.close.deleteSession id = .error .notInitialized ∧
    m.close.setCurrentSession id = .error .notInitialized ∧
    m.close.saveLogs logs = (.error .notInitialized, m.close) ∧
    m.close.assignLogsToGroup gid lids =
      (.error .notInitialized, m.close) ∧
    StorageManager.initialState.db.run stmt = .error .notInitialized ∧
    StorageManager.initialState.getSession id = .error .notInitialized ∧
    StorageManager.initialState.saveLogs logs =
      (.error .notInitialized, StorageManager.initialState) :=
  ⟨rfl, rfl, rfl, rfl, rfl, rfl, rfl, rfl, rfl, rfl, rfl, rfl, rfl, rfl,
   rfl, rfl, rfl, rfl, rfl, rfl⟩

/-- Claim C6: setCurrentSession looks the session up in the store; when
found it replaces the in-memory current-session pointer and returns the
session; when not found it returns null and leaves the pointer exactly
as it was, so getCurrentSession still returns the previous selection;
and getCurrentSession reads only the in-memory pointer, independently of
the Database component. -/
theorem setCurrentSession_spec (m : StorageManager) (sid : String)
    (t : DB) (h : m.db.db = some t) :
    (∀ s, t.selectSession sid = some s →
      m.setCurrentSession sid =
        .ok (some s, { m with currentSession := some s })) ∧
    (t.selectSession sid = none →
      m.setCurrentSession sid = .ok (none, m) ∧
      m.getCurrentSession = m.currentSession) ∧
    (∀ d' : Database, StorageManager.getCurrentSession { m with db := d' } =
      StorageManager.getCurrentSession m) := by
  have hdb : m.db = ⟨some t⟩ := by rw [← h]
  refine ⟨?_, ?_, fun _ => rfl⟩
  · intro s hs
    simp [StorageManager.setCurrentSession, StorageManager.getSession,
      Database.get, hdb, hs]
  · intro hs
    exact ⟨by simp [StorageManager.setCurrentSession,
      StorageManager.getSession, Database.get, hdb, hs], rfl⟩

/-- Claim C6 witness: on the sample store, a switch to an unknown id
returns null and the current session is still s1. -/
theorem setCurrentSession_spec_witness :
    sampleStore.setCurrentSession "zz" = .ok (none, sampleStore) ∧
    sampleStore.getCurrentSession = some sampleSessionA :=
  ⟨((setCurrentSession_spec sampleStore "zz" sampleDB rfl).2.1
      (by decide)).1, rfl⟩

/-- Claim C2: deleteSession removes the session's logs, then its log
groups, then the session row, in that order; afterwards
getSessionLogs and getSessionLogGroups return empty sequences and
getSession returns not-found. -/
theorem deleteSession_cascade (m : StorageManager) (id : String) (t : DB)
    (h : m.db.db = some t) :
    m.deleteSession id = .ok { m with db :=
      ⟨some (((t.deleteSessionLogs id).deleteSessionLogGroups
        id).deleteSessionRow id)⟩ } ∧
    ∀ m', m.deleteSession id = .ok m' →
      m'.getSessionLogs id = .ok [] ∧
      m'.getSessionLogGroups id = .ok [] ∧
      m'.getSession id = .ok none := by
  have hdb : m.db = ⟨some t⟩ := by rw [← h]
  have hrun : m.deleteSession id = .ok { m with db :=
      ⟨some (((t.deleteSessionLogs id).deleteSessionLogGroups
        id).deleteSessionRow id)⟩ } := by
    simp [StorageManager.deleteSession, Database.run, hdb]
  refine ⟨hrun, ?_⟩
  intro m' hm'
  rw [hrun] at hm'
  injection hm' with hm'
  subst hm'
  refine ⟨?_, ?_, ?_⟩
  · simp [StorageManager.getSessionLogs, Database.all,
      DB.selectSessionLogs, DB.deleteSessionRow, DB.deleteSessionLogGroups,
      DB.deleteSessionLogs, filter_not_filter_self, List.insertionSort]
  · simp [StorageManager.getSessionLogGroups, Database.all,
      DB.selectSessionLogGroups, DB.deleteSessionRow,
      DB.deleteSessionLogGroups, DB.deleteSessionLogs,
      filter_not_filter_self, List.insertionSort]
  · simp [StorageManager.getSession, Database.get, DB.selectSession,
      DB.deleteSessionRow, DB.deleteSessionLogGroups, DB.deleteSessionLogs,
      find?_filter_not]

/-- Claim C2 witness: deleting the sample session s1 leaves no logs, no
groups and no session row for s1. -/
theorem deleteSession_cascade_witness :
    sampleStore.deleteSession "s1" = .ok { sampleStore with db :=
      ⟨some (((sampleDB.deleteSessionLogs "s1").deleteSessionLogGroups
        "s1").deleteSessionRow "s1")⟩ } :=
  (deleteSession_cascade sampleStore "s1" sampleDB rfl).1

/-- Claim C10: updateSession and updateLogGroup called with a record
whose id matches no stored row complete without error, return the
record passed in (updateSession having refreshed its updatedAt in
place, as it always does), and leave the whole store unchanged. -/
theorem update_missing_id_noop (m : StorageManager) (s : Session)
    (g : LogGroup) (now : Nat) (t : DB) (h : m.db.db = some t)
    (hs : ∀ r ∈ t.sessions, (r.id == s.id) = false)
    (hg : ∀ r ∈ t.logGroups, (r.id == g.id) = false) :
    m.updateSession s now = .ok ({ s with updatedAt := now }, m) ∧
    m.updateLogGroup g = .ok (g, m) := by
  have hdb : m.db = ⟨some t⟩ := by rw [← h]
  have hm : ({ m with db := (⟨some t⟩ : Database) } : StorageManager)
      = m := by rw [← hdb]
  constructor
  · have hmap : DB.updateSessionRow t { s with updatedAt := now } = t := by
      simp only [DB.updateSessionRow]
      rw [map_if_no_match _ _ _ hs]
    simp [StorageManager.updateSession, Database.run, hdb, hmap, hm]
  · have hmap : DB.updateLogGroupRow t g = t := by
      simp only [DB.updateLogGroupRow]
      rw [map_if_no_match _ _ _ hg]
    simp [StorageManager.updateLogGroup, Database.run, hdb, hmap, hm]

/-- Claim C10 witness: updates keyed on the unknown ids zz and zg leave
the sample store untouched and still return the records. -/
theorem update_missing_id_noop_witness :
    sampleStore.updateSession sampleGhostSession 9 =
      .ok ({ sampleGhostSession with updatedAt := 9 }, sampleStore) ∧
    sampleStore.updateLogGroup sampleGhostGroup =
      .ok (sampleGhostGroup, sampleStore) :=
  update_missing_id_noop sampleStore sampleGhostSession sampleGhostGroup 9
    sampleDB rfl (by decide) (by decide)

/-- Claim C9: assignLogsToGroup validates nothing: for any group id —
including one naming no stored LogGroup — and any list of log ids the
call succeeds; log ids matching no stored Log change zero rows (an
all-miss call leaves the store exactly as it was); and a matched log
ends up with its groupId referencing the given group id, no matter
whether such a group exists. -/
theorem assignLogsToGroup_no_validation (m : StorageManager)
    (gid : String) (lids : List String) (t : DB) (h : m.db.db = some t) :
    m.assignLogsToGroup gid lids =
      (.ok (), { m with db := ⟨some (t.assignLogs gid lids)⟩ }) ∧
    ((∀ l ∈ t.logs, l.id ∉ lids) →
      m.assignLogsToGroup gid lids = (.ok (), m)) ∧
    (∀ l ∈ t.logs, l.id ∈ lids →
      { l with groupId := some gid } ∈ (t.assignLogs gid lids).logs) := by
  have hdb : m.db = ⟨some t⟩ := by rw [← h]
  have hm : ({ m with db := (⟨some t⟩ : Database) } : StorageManager)
      = m := by rw [← hdb]
  obtain ⟨h1, h2, h3⟩ := assignLogs_eq gid lids t
  refine ⟨by simp [StorageManager.assignLogsToGroup, hdb], ?_, ?_⟩
  · intro hnone
    have hl : (t.assignLogs gid lids).logs = t.logs := by
      rw [h3]
      have : ∀ l ∈ t.logs,
          (if l.id ∈ lids then { l with groupId := some gid } else l)
            = id l := by
        intro l hl
        simp [hnone l hl]
      rw [List.map_congr_left this, List.map_id]
    have hdbeq : t.assignLogs gid lids = t := by
      cases ht : t.assignLogs gid lids with
      | mk a b c =>
        rw [ht] at h1 h2 hl
        simp only at h1 h2 hl
        cases t
        simp only at h1 h2 hl
        rw [h1, h2, hl]
    simp [StorageManager.assignLogsToGroup, hdb, hdbeq, hm]
  · intro l hl hml
    rw [h3]
    have hfun : (fun x : Log => if x.id ∈ lids then
        { x with groupId := some gid } else x) l
          = { l with groupId := some gid } := by simp [hml]
    exact hfun ▸ List.mem_map_of_mem _ hl

/-- Claim C9 witness: assigning log l1 to the nonexistent group zz
succeeds, an all-miss id list changes nothing, and l1 ends up pointing
at zz. -/
theorem assignLogsToGroup_no_validation_witness :
    sampleStore.assignLogsToGroup "zz" ["l1"] =
      (.ok (), { sampleStore with
        db := ⟨some (sampleDB.assignLogs "zz" ["l1"])⟩ }) ∧
    sampleStore.assignLogsToGroup "zz" ["nope"] = (.ok (), sampleStore) ∧
    { sampleLog1 with groupId := some "zz" } ∈
      (sampleDB.assignLogs "zz" ["l1"]).logs :=
  ⟨(assignLogsToGroup_no_validation sampleStore "zz" ["l1"]
      sampleDB rfl).1,
   (assignLogsToGroup_no_validation sampleStore "zz" ["nope"]
      sampleDB rfl).2.1 (by decide),
   (assignLogsToGroup_no_validation sampleStore "zz" ["l1"]
      sampleDB rfl).2.2 sampleLog1 (by decide) (by decide)⟩

/-- Claim C4: with a fresh identifier, createSession persists and
returns a record carrying the given fields, status new and equal
creation and update timestamps, and getSession on that identifier
returns exactly the same record. -/
theorem createSession_roundTrip (m : StorageManager)
    (nm cp : String) (st et : Nat) (freshId : String) (now : Nat)
    (t : DB) (h : m.db.db = some t)
    (hfresh : ∀ r ∈ t.sessions, (r.id == freshId) = false) :
    (∃ r, m.createSession nm cp st et freshId now = .ok r) ∧
    (∀ s m', m.createSession nm cp st et freshId now = .ok (s, m') →
      s.id = freshId ∧ s.name = nm ∧ s.cloudProvider = cp ∧
      s.startTime = st ∧ s.endTime = et ∧ s.status = "new" ∧
      s.createdAt = now ∧ s.createdAt = s.updatedAt ∧
      m'.getSession freshId = .ok (some s)) := by
  have hdb : m.db = ⟨some t⟩ := by rw [← h]
  have hany : t.sessions.any (fun r => r.id == freshId) = false :=
    List.any_eq_false.mpr (fun r hr => by simp [hfresh r hr])
  have hcall : m.createSession nm cp st et freshId now =
      .ok ({ id := freshId, name := nm, createdAt := now, updatedAt := now,
             cloudProvider := cp, startTime := st, endTime := et,
             status := "new" },
           { m with db := ⟨some { t with sessions := t.sessions ++
             [{ id := freshId, name := nm, createdAt := now,
                updatedAt := now, cloudProvider := cp, startTime := st,
                endTime := et, status := "new" }] }⟩ }) := by
    simp [StorageManager.createSession, Database.run, DB.insertSession,
      hdb, hany]
  have hnone : t.sessions.find? (fun r => r.id == freshId) = none :=
    List.find?_eq_none.mpr (fun r hr => by simp [hfresh r hr])
  refine ⟨⟨_, hcall⟩, ?_⟩
  intro s m' he
  rw [hcall] at he
  injection he with he
  injection he with he1 he2
  subst he1
  subst he2
  refine ⟨rfl, rfl, rfl, rfl, rfl, rfl, rfl, rfl, ?_⟩
  simp [StorageManager.getSession, Database.get, DB.selectSession,
    List.find?_append, hnone]

/-- Claim C4 witness: creating a session with fresh id s9 on the sample
store and reading it back. -/
theorem createSession_roundTrip_witness :
    ∃ r, sampleStore.createSession "n" "aws" 1 2 "s9" 7 = .ok r :=
  (createSession_roundTrip sampleStore "n" "aws" 1 2 "s9" 7 sampleDB rfl
    (by decide)).1

/-- Claim C1: saveLogs is all-or-nothing. When some row's insert fails,
the batch is rolled back — the state after the call is exactly the
pre-call state, so no row of the batch is visible to any subsequent
read — and the failing insert's own error is re-thrown; when every
insert succeeds the whole batch is appended as the bound rows (optional
columns normalized by field || null, so an absent or empty-string
value is stored as NULL), and each batch row's stored form is visible
to a subsequent getSessionLogs of its session. -/
theorem saveLogs_atomic (m : StorageManager) (logs : List Log) (t : DB)
    (h : m.db.db = some t) :
    (∀ e, DB.insertLogs t (logs.map Log.bindRow) = .error e →
      m.saveLogs logs = (.error e, m)) ∧
    (∀ t', DB.insertLogs t (logs.map Log.bindRow) = .ok t' →
      m.saveLogs logs = (.ok (), { m with db := ⟨some t'⟩ }) ∧
      t'.logs = t.logs ++ logs.map Log.bindRow ∧
      ∀ lg ∈ logs, ∃ visible,
        StorageManager.getSessionLogs { m with db := ⟨some t'⟩ }
          lg.sessionId = .ok visible ∧ lg.bindRow ∈ visible) := by
  constructor
  · intro e he
    simp [StorageManager.saveLogs, h, he]
  · intro t' ht'
    obtain ⟨h1, h2, h3⟩ := insertLogs_ok (logs.map Log.bindRow) t t' ht'
    refine ⟨by simp [StorageManager.saveLogs, h, ht'], h3, ?_⟩
    intro lg hlg
    refine ⟨t'.selectSessionLogs lg.sessionId, rfl, ?_⟩
    simp only [DB.selectSessionLogs]
    rw [(List.perm_insertionSort logTimestampAsc _).mem_iff]
    apply List.mem_filter.mpr
    refine ⟨?_, by simp [Log.bindRow]⟩
    rw [h3]
    exact List.mem_append_right _ (List.mem_map_of_mem Log.bindRow hlg)

/-- Claim C1 witness: the batch whose second row collides with stored
id l1 is rolled back with its constraint error; a clean one-row batch
commits and is appended; and a committed row with an empty-string
service is stored with NULL service, per the || null binding. -/
theorem saveLogs_atomic_witness :
    sampleStore.saveLogs sampleDupBatch =
      (.error .constraintViolation, sampleStore) ∧
    sampleStore.saveLogs [sampleFreshLog] = (.ok (),
      { sampleStore with db := ⟨some { sampleDB with
          logs := sampleDB.logs ++ [sampleFreshLog] }⟩ }) ∧
    sampleStore.saveLogs [sampleEmptyServiceLog] = (.ok (),
      { sampleStore with db := ⟨some { sampleDB with
          logs := sampleDB.logs ++
            [{ sampleEmptyServiceLog with service := none }] }⟩ }) :=
  ⟨(saveLogs_atomic sampleStore sampleDupBatch sampleDB rfl).1
      .constraintViolation (by rfl),
   ((saveLogs_atomic sampleStore [sampleFreshLog] sampleDB rfl).2
      { sampleDB with logs := sampleDB.logs ++ [sampleFreshLog] }
      (by rfl)).1,
   ((saveLogs_atomic sampleStore [sampleEmptyServiceLog] sampleDB rfl).2
      { sampleDB with logs := sampleDB.logs ++
          [{ sampleEmptyServiceLog with service := none }] }
      (by rfl)).1⟩

/-- Claim C3 counterexample: updateSession sets updatedAt to the clock
value, but when the clock reads the same instant as the stored
updatedAt (both 5 here) the refreshed value equals the pre-update value
instead of strictly exceeding it: the store is bit-for-bit unchanged
and the retrieved row still carries updatedAt 5. -/
theorem updateSession_strict_increase_cex :
    sampleStore.updateSession sampleSessionA 5 =
      .ok (sampleSessionA, sampleStore) ∧
    sampleStore.getSession "s1" = .ok (some sampleSessionA) ∧
    ¬ sampleSessionA.updatedAt > sampleSessionA.updatedAt :=
  ⟨rfl, rfl, by omega⟩

/-- Claim C3 (amended): updateSession overwrites every mutable field of
the matching stored row by id, keeps id and createdAt, and sets
updatedAt to the clock value now regardless of the caller-supplied
value; whenever the clock has advanced strictly past the stored row's
updatedAt, the retrieved updatedAt is strictly greater than the
pre-update value. -/
theorem updateSession_refresh (m : StorageManager) (s : Session)
    (now : Nat) (t : DB) (r : Session) (h : m.db.db = some t)
    (hr : t.sessions.find? (fun x => x.id == s.id) = some r) :
    ∃ m', m.updateSession s now = .ok ({ s with updatedAt := now }, m') ∧
      m'.getSession s.id = .ok (some
        { r with name := s.name, updatedAt := now,
                 cloudProvider := s.cloudProvider,
                 startTime := s.startTime, endTime := s.endTime,
                 status := s.status }) ∧
      (r.updatedAt < now → ∀ cur, m'.getSession s.id = .ok (some cur) →
        r.updatedAt < cur.updatedAt) := by
  have hdb : m.db = ⟨some t⟩ := by rw [← h]
  have hfind := find?_map_if (fun x : Session => x.id == s.id)
    (fun x =>
      { x with name := s.name, updatedAt := now,
               cloudProvider := s.cloudProvider, startTime := s.startTime,
               endTime := s.endTime, status := s.status })
    (fun _ => rfl) t.sessions r hr
  have hget : StorageManager.getSession
      { m with db := ⟨some (t.updateSessionRow { s with updatedAt := now })⟩ }
      s.id = .ok (some
        { r with name := s.name, updatedAt := now,
                 cloudProvider := s.cloudProvider,
                 startTime := s.startTime, endTime := s.endTime,
                 status := s.status }) := by
    simp only [StorageManager.getSession, Database.get, DB.selectSession,
      DB.updateSessionRow]
    rw [hfind]
  refine ⟨{ m with db :=
      ⟨some (t.updateSessionRow { s with updatedAt := now })⟩ },
    by simp [StorageManager.updateSession, Database.run, hdb], hget, ?_⟩
  intro hlt cur hcur
  rw [hget] at hcur
  injection hcur with hcur
  injection hcur with hcur
  subst hcur
  exact hlt

/-- Claim C3 (amended) witness: renaming stored session s1 at clock
value 9 > 5 refreshes its updatedAt to 9. -/
theorem updateSession_refresh_witness :
    ∃ m', sampleStore.updateSession
        { sampleSessionA with name := "renamed" } 9 =
      .ok ({ sampleSessionA with name := "renamed", updatedAt := 9 }, m') ∧
      m'.getSession "s1" = .ok (some
        { sampleSessionA with name := "renamed", updatedAt := 9 }) ∧
      (sampleSessionA.updatedAt < 9 → ∀ cur,
        m'.getSession "s1" = .ok (some cur) →
        sampleSessionA.updatedAt < cur.updatedAt) :=
  updateSession_refresh sampleStore
    { sampleSessionA with name := "renamed" } 9 sampleDB sampleSessionA
    rfl (by rfl)

/-- Claim C7: every query surface is deterministically ordered:
getAllSessions by updatedAt descending, getSessionLogs by timestamp
ascending, getSessionLogGroups by name ascending. -/
theorem query_ordering (m : StorageManager) (sid : String) (t : DB)
    (h : m.db.db = some t) :
    (∃ ss, m.getAllSessions = .ok ss ∧ ss.Sorted sessionUpdatedDesc) ∧
    (∃ ls, m.getSessionLogs sid = .ok ls ∧ ls.Sorted logTimestampAsc) ∧
    (∃ gs, m.getSessionLogGroups sid = .ok gs ∧
      gs.Sorted groupNameAsc) := by
  have hdb : m.db = ⟨some t⟩ := by rw [← h]
  refine ⟨⟨t.selectAllSessions,
      by simp [StorageManager.getAllSessions, Database.all, hdb],
      List.sorted_insertionSort _ _⟩,
    ⟨t.selectSessionLogs sid,
      by simp [StorageManager.getSessionLogs, Database.all, hdb],
      List.sorted_insertionSort _ _⟩,
    ⟨t.selectSessionLogGroups sid,
      by simp [StorageManager.getSessionLogGroups, Database.all, hdb],
      List.sorted_insertionSort _ _⟩⟩

/-- Claim C7 witness: the three ordered reads on the sample store. -/
theorem query_ordering_witness :
    (∃ ss, sampleStore.getAllSessions = .ok ss ∧
      ss.Sorted sessionUpdatedDesc) ∧
    (∃ ls, sampleStore.getSessionLogs "s1" = .ok ls ∧
      ls.Sorted logTimestampAsc) ∧
    (∃ gs, sampleStore.getSessionLogGroups "s1" = .ok gs ∧
      gs.Sorted groupNameAsc) :=
  query_ordering sampleStore "s1" sampleDB rfl

/-- Claim C5: a log belongs to at most one group. Reassigning a log
that currently sits in group A to group B makes getGroupLogs A stop
listing any row with its id while getGroupLogs B lists a row with its
id exactly once — no duplication anywhere. -/
theorem group_reassignment (m : StorageManager) (lg : Log) (a b : String)
    (t : DB) (h : m.db.db = some t) (hmem : lg ∈ t.logs)
    (hgrp : lg.groupId = some a) (hne : a ≠ b)
    (hnodup : (t.logs.map Log.id).Nodup) :
    ∃ m', m.assignLogsToGroup b [lg.id] = (.ok (), m') ∧
      (∀ la, m'.getGroupLogs a = .ok la → ∀ x ∈ la, x.id ≠ lg.id) ∧
      (∀ lb, m'.getGroupLogs b = .ok lb →
        lb.countP (fun x => x.id == lg.id) = 1) := by
  have hdb : m.db = ⟨some t⟩ := by rw [← h]
  obtain ⟨h1, h2, h3⟩ := assignLogs_eq b [lg.id] t
  refine ⟨{ m with db := ⟨some (t.assignLogs b [lg.id])⟩ },
    by simp [StorageManager.assignLogsToGroup, hdb], ?_, ?_⟩
  · intro la hla x hx
    have hla' : la = (t.assignLogs b [lg.id]).selectGroupLogs a := by
      simpa [StorageManager.getGroupLogs, Database.all] using hla.symm
    subst hla'
    simp only [DB.selectGroupLogs] at hx
    rw [(List.perm_insertionSort logTimestampAsc _).mem_iff] at hx
    obtain ⟨hxmem, hxgrp⟩ := List.mem_filter.mp hx
    rw [h3] at hxmem
    obtain ⟨l0, hl0, hfx⟩ := List.mem_map.mp hxmem
    by_cases hid : l0.id = lg.id
    · exfalso
      rw [if_pos (by simp [hid])] at hfx
      rw [← hfx] at hxgrp
      simp at hxgrp
      exact hne hxgrp.symm
    · rw [if_neg (by simp [hid])] at hfx
      rw [← hfx]
      exact hid
  · intro lb hlb
    have hlb' : lb = (t.assignLogs b [lg.id]).selectGroupLogs b := by
      simpa [StorageManager.getGroupLogs, Database.all] using hlb.symm
    subst hlb'
    simp only [DB.selectGroupLogs]
    rw [(List.perm_insertionSort logTimestampAsc _).countP_eq]
    rw [List.countP_filter, h3, List.countP_map]
    have hpt : ((fun x : Log => x.id == lg.id && (x.groupId == some b)) ∘
        (fun l => if l.id ∈ [lg.id] then { l with groupId := some b }
          else l)) = fun l : Log => l.id == lg.id := by
      funext l0
      by_cases hid : l0.id = lg.id
      · simp [Function.comp, hid]
      · simp [Function.comp, hid]
    rw [hpt]
    have hmem' : lg.id ∈ t.logs.map Log.id :=
      List.mem_map_of_mem Log.id hmem
    have hcnt : (t.logs.map Log.id).count lg.id = 1 :=
      List.count_eq_one_of_mem hnodup hmem'
    have hstep : t.logs.countP (fun l => l.id == lg.id) =
        (t.logs.map Log.id).count lg.id := by
      show _ = (t.logs.map Log.id).countP (fun x => x == lg.id)
      rw [List.countP_map]
      rfl
    rw [hstep, hcnt]

/-- Claim C5 witness: moving stored log l1 from group g1 to group g2 on
the sample store. -/
theorem group_reassignment_witness :
    ∃ m', sampleStore.assignLogsToGroup "g2" ["l1"] = (.ok (), m') ∧
      (∀ la, m'.getGroupLogs "g1" = .ok la →
        ∀ x ∈ la, x.id ≠ sampleLog1.id) ∧
      (∀ lb, m'.getGroupLogs "g2" = .ok lb →
        lb.countP (fun x => x.id == sampleLog1.id) = 1) :=
  group_reassignment sampleStore sampleLog1 "g1" "g2" sampleDB rfl
    (by decide) rfl (by decide) (by decide)

end Rootsy
